import Mathlib

/-!
Verification development for the `BiomassAnalyzer` pipeline
(`src/data-analysis/biomass_analysis.py`).

The program is a deterministic numeric pipeline: an image becomes a 14-element
feature vector, a regression backend turns the scaled vector into a biomass
estimate, fixed conversion factors derive carbon and CO2 quantities, and an
aggregator summarizes batches.

Modelling conventions:
- Python/numpy floating-point values are modelled as exact rationals `ℚ`
  wherever the computation stays finite; `calculate_ndvi` performs an
  elementwise division that can hit a zero denominator, so its arithmetic is
  modelled on the extended type `RFloat` (finite / +inf / -inf / NaN) with
  numpy's propagation rules — numpy elementwise division by zero does NOT
  raise a Python exception, it produces inf/NaN.
- External collaborators (cv2 image decoding and color conversion, contour
  extraction, the pluggable regression backend, wall-clock timestamps) are
  parameters of the corresponding definitions; everything the source computes
  itself is translated directly.
- `np.sqrt` on rationals is represented by `Rat.sqrt`, which is exact on
  perfect squares; no theorem below depends on its value at a non-square.
-/

namespace BiomassAnalysis

/-- Pixel of an in-memory image: one rational per channel, in the channel order
the surrounding code uses (RGB after `cv2.cvtColor(..., COLOR_BGR2RGB)`, or a
converted space such as HSV/LAB where noted). -/
abbrev Pixel : Type := ℚ × ℚ × ℚ

/-- In-memory image as produced by `preprocess_image`: a flattened buffer of
pixels (the statistics in the source reduce over all pixels, so the 2-D layout
is irrelevant). -/
abbrev Image : Type := List Pixel

/-- Caller-supplied environmental metadata mapping (`moisture_index`,
`temperature`, `salinity` keys in the source). -/
abbrev Metadata : Type := List (String × ℚ)

/-- Extended value mirroring IEEE float behaviour of numpy arrays in
`calculate_ndvi`: a finite rational, an infinity of either sign, or NaN. -/
inductive RFloat where
  | fin : ℚ → RFloat
  | inf : RFloat
  | ninf : RFloat
  | nan : RFloat
deriving DecidableEq

/-- Elementwise numpy division of two finite values: a zero denominator yields
NaN (0/0) or a signed infinity, without raising a Python exception. -/
def fdiv (a b : ℚ) : RFloat :=
  if b = 0 then
    if a = 0 then .nan else if 0 < a then .inf else .ninf
  else .fin (a / b)

/-- Addition on extended values with numpy/IEEE propagation: NaN absorbs, and
opposite infinities give NaN. -/
def RFloat.add : RFloat → RFloat → RFloat
  | .nan, _ => .nan
  | _, .nan => .nan
  | .inf, .ninf => .nan
  | .ninf, .inf => .nan
  | .inf, _ => .inf
  | _, .inf => .inf
  | .ninf, _ => .ninf
  | _, .ninf => .ninf
  | .fin a, .fin b => .fin (a + b)

/-- Negation on extended values. -/
def RFloat.neg : RFloat → RFloat
  | .nan => .nan
  | .inf => .ninf
  | .ninf => .inf
  | .fin a => .fin (-a)

/-- Subtraction on extended values. -/
def RFloat.sub (a b : RFloat) : RFloat := a.add b.neg

/-- Squaring on extended values (used by the variance inside `np.std`). -/
def RFloat.sq : RFloat → RFloat
  | .nan => .nan
  | .inf => .inf
  | .ninf => .inf
  | .fin a => .fin (a * a)

/-- Division of an extended value by a (positive) element count, as in the
final step of `np.mean`. -/
def RFloat.divNat : RFloat → ℕ → RFloat
  | .nan, _ => .nan
  | .inf, _ => .inf
  | .ninf, _ => .ninf
  | .fin a, n => .fin (a / (n : ℚ))

/-- Binary minimum with NaN propagation, as used by the `np.min` reduction. -/
def RFloat.fmin : RFloat → RFloat → RFloat
  | .nan, _ => .nan
  | _, .nan => .nan
  | .ninf, _ => .ninf
  | _, .ninf => .ninf
  | .inf, b => b
  | a, .inf => a
  | .fin a, .fin b => .fin (min a b)

/-- Binary maximum with NaN propagation, as used by the `np.max` reduction. -/
def RFloat.fmax : RFloat → RFloat → RFloat
  | .nan, _ => .nan
  | _, .nan => .nan
  | .inf, _ => .inf
  | _, .inf => .inf
  | .ninf, b => b
  | a, .ninf => a
  | .fin a, .fin b => .fin (max a b)

/-- Square root on extended values (`np.sqrt`); the finite branch uses
`Rat.sqrt`, exact on perfect squares, and no theorem depends on its value at a
non-square. -/
def RFloat.fsqrt : RFloat → RFloat
  | .nan => .nan
  | .inf => .inf
  | .ninf => .nan
  | .fin a => if a < 0 then .nan else .fin (Rat.sqrt a)

/-- Sum reduction over an array of extended values (`np.sum`, the first step
of `np.mean`). -/
def rsum (xs : List RFloat) : RFloat := xs.foldl RFloat.add (.fin 0)

/-- `np.mean` over a nonempty array of extended values. -/
def rmean (xs : List RFloat) : RFloat := (rsum xs).divNat xs.length

/-- `np.std` over a nonempty array of extended values: square root of the mean
squared deviation from the mean. -/
def rstd (xs : List RFloat) : RFloat :=
  let m := rmean xs
  (rmean (xs.map (fun x => (x.sub m).sq))).fsqrt

/-- `np.min` reduction over a nonempty array of extended values. -/
def rminList (xs : List RFloat) : RFloat :=
  match xs with
  | [] => .nan
  | x :: rest => rest.foldl RFloat.fmin x

/-- `np.max` reduction over a nonempty array of extended values. -/
def rmaxList (xs : List RFloat) : RFloat :=
  match xs with
  | [] => .nan
  | x :: rest => rest.foldl RFloat.fmax x

/-- The four NDVI statistics returned by `calculate_ndvi`. -/
structure NdviStats where
  ndvi_mean : RFloat
  ndvi_std : RFloat
  ndvi_min : RFloat
  ndvi_max : RFloat
deriving DecidableEq

/-- Per-pixel EVI approximation from `calculate_ndvi`:
`2.5 * (green - red) / (green + 6*red - 7.5*blue + 1)`, with numpy division
semantics at a zero denominator. -/
def evi (p : Pixel) : RFloat :=
  fdiv (5/2 * (p.2.1 - p.1)) (p.2.1 + 6 * p.1 - 15/2 * p.2.2 + 1)

/-- Model of `calculate_ndvi`. On an empty pixel buffer `np.min` raises
`ValueError`, which the handler converts to the all-zero statistics. On a
nonempty buffer the numpy arithmetic raises no Python exception — a zero EVI
denominator silently produces inf/NaN — so the handler is never reached and
the (possibly non-finite) statistics are returned as computed. -/
def calculate_ndvi (img : Image) : NdviStats :=
  match img with
  | [] => ⟨.fin 0, .fin 0, .fin 0, .fin 0⟩
  | _ =>
    let evis := img.map evi
    ⟨rmean evis, rstd evis, rminList evis, rmaxList evis⟩

/-- numpy `np.clip(x, lo, hi)`: the lower bound is applied first, then the
upper bound. -/
def npClip (x lo hi : ℚ) : ℚ := min (max x lo) hi

/-- Fixed weight vector of `_calculate_fallback_biomass`
(`[0.3, 0.1, 0.1, 0.2, 0.2, 0.1, 0.1, 0.2, 0.3, 0.4, 0.2, 0.1, 0.05, 0.05]`). -/
def fallback_weights : List ℚ :=
  [3/10, 1/10, 1/10, 1/5, 1/5, 1/10, 1/10, 1/5, 3/10, 2/5, 1/5, 1/10, 1/20, 1/20]

/-- Model of `_calculate_fallback_biomass`: elementwise product of the features
with the fixed weights, summed, then clipped to `[0.1, 50.0]`. -/
def calculate_fallback_biomass (features : List ℚ) : ℚ :=
  npClip (List.zipWith (· * ·) features fallback_weights).sum (1/10) 50

/-- Model of `_calculate_confidence`. The source indexes `features[0]`,
`features[4]` and `features[9]`; when an index is out of range the resulting
`IndexError` is caught by the handler, which returns the neutral confidence
0.5. Otherwise the three sub-scores are averaged and clipped to `[0, 1]`. -/
def calculate_confidence (features : List ℚ) : ℚ :=
  match features.get? 0, features.get? 4, features.get? 9 with
  | some f0, some f4, some f9 =>
    let ndvi_quality := min (f0 / (1/2)) 1
    let height_quality := min (f4 / 100) 1
    let canopy_quality := f9 / 100
    npClip ((ndvi_quality + height_quality + canopy_quality) / 3) 0 1
  | _, _, _ => 1/2

/-- sklearn `_handle_zeros_in_scale`: a zero scale (constant column) is
replaced by 1 so the transform divides by 1 instead of 0. -/
def handleZeros (s : ℚ) : ℚ := if s = 0 then 1 else s

/-- One column of sklearn `StandardScaler().fit_transform`: center by the
column mean and divide by the column standard deviation, with a zero scale
replaced by 1. -/
def scale_column (samples : List ℚ) : List ℚ :=
  let mean := samples.sum / (samples.length : ℚ)
  let var := (samples.map (fun v => (v - mean) ^ 2)).sum / (samples.length : ℚ)
  let scale := handleZeros (Rat.sqrt var)
  samples.map (fun v => (v - mean) / scale)

/-- `self.scaler.fit_transform(features)` as called in `estimate_biomass`: the
matrix has a single row, so every column holds exactly one sample (that row's
entry), and the scaler is refit from this one row on every call. -/
def scaler_fit_transform_single (features : List ℚ) : List ℚ :=
  features.map (fun xi => (scale_column [xi]).headI)

/-- Vegetation mask predicate of `calculate_canopy_cover`: `cv2.inRange` with
lower bound `[35, 40, 40]` and upper bound `[85, 255, 255]` keeps an HSV pixel
when each channel lies inclusively between the bounds. -/
def in_green_range (p : Pixel) : Bool :=
  decide (35 ≤ p.1 ∧ p.1 ≤ 85) && decide (40 ≤ p.2.1 ∧ p.2.1 ≤ 255) &&
    decide (40 ≤ p.2.2 ∧ p.2.2 ≤ 255)

/-- Model of `calculate_canopy_cover`, parameterized by the external cv2
RGB→HSV conversion applied per pixel: the percentage of pixels whose converted
value falls in the fixed vegetation color band. -/
def calculate_canopy_cover (cvtHSV : Pixel → Pixel) (img : Image) : ℚ :=
  let mask := (img.map cvtHSV).filter in_green_range
  ((mask.length : ℚ) / (img.length : ℚ)) * 100

/-- `np.mean` over a nonempty rational list. -/
def listMean (xs : List ℚ) : ℚ := xs.sum / (xs.length : ℚ)

/-- `np.var` over a nonempty rational list: mean squared deviation from the
mean. -/
def channelVar (xs : List ℚ) : ℚ :=
  (xs.map (fun v => (v - listMean xs) ^ 2)).sum / (xs.length : ℚ)

/-- `np.std` over a nonempty rational list (square root of the variance,
represented with `Rat.sqrt`). -/
def listStd (xs : List ℚ) : ℚ := Rat.sqrt (channelVar xs)

/-- Model of `estimate_species_diversity`, parameterized by the external cv2
RGB→LAB conversion applied per pixel: the mean of the three per-channel
variances, divided by 255, clipped to `[0, 1]`. -/
def estimate_species_diversity (cvtLAB : Pixel → Pixel) (img : Image) : ℚ :=
  let lab := img.map cvtLAB
  let color_variance :=
    [channelVar (lab.map (fun p => p.1)),
     channelVar (lab.map (fun p => p.2.1)),
     channelVar (lab.map (fun p => p.2.2))]
  let diversity_score := (color_variance.sum / 3) / 255
  npClip diversity_score 0 1

/-- Single-image analysis record produced by `estimate_biomass` on success
(the `analysis_results` dictionary; the descriptive `analysis_metadata` block
carries no computed quantities and is omitted). -/
structure AnalysisResult where
  image_path : String
  timestamp : String
  biomass_estimate_kg_m2 : ℚ
  carbon_content_kg_m2 : ℚ
  co2_equivalent_kg_m2 : ℚ
  features : List ℚ
  confidence_score : ℚ
deriving DecidableEq

/-- Outcome of `estimate_biomass`: the analysis record, or the error
dictionary `{error, image_path, timestamp}` built by the handler. -/
inductive EstimateResult where
  | ok : AnalysisResult → EstimateResult
  | err : String → String → String → EstimateResult
deriving DecidableEq

/-- True on a non-error-tagged result (the source's `'error' not in result`
test). -/
def EstimateResult.isOk : EstimateResult → Bool
  | .ok _ => true
  | .err _ _ _ => false

/-- The analysis record of a non-error-tagged result, if any. -/
def EstimateResult.toOk : EstimateResult → Option AnalysisResult
  | .ok r => some r
  | .err _ _ _ => none

/-- Model of `estimate_biomass`. External collaborators are parameters:
`preprocess` models `preprocess_image` (cv2 decode/convert/resize/normalize),
returning `none` when the image cannot be loaded — the `ValueError` it raises
is caught by the handler, which returns the error dictionary carrying the
original path and the timestamp; `extract` models `extract_features`, whose
individual statistics are modelled above but whose composition runs through
further cv2 primitives (Canny/contours); `predict` models the regression
backend applied to the scaled feature vector; `now` models
`datetime.now().isoformat()`. The definition is total: no exception escapes
the pipeline boundary. -/
def estimate_biomass (preprocess : String → Option Image)
    (extract : Image → Metadata → List ℚ) (predict : List ℚ → ℚ)
    (now : String) (image_path : String) (metadata : Metadata) :
    EstimateResult :=
  match preprocess image_path with
  | none => .err ("Could not load image from " ++ image_path) image_path now
  | some image =>
    let features := extract image metadata
    let features_scaled := scaler_fit_transform_single features
    let biomass_prediction := predict features_scaled
    let carbon_content := biomass_prediction * (47/100)
    let co2_equivalent := carbon_content * (367/100)
    .ok { image_path := image_path
          timestamp := now
          biomass_estimate_kg_m2 := biomass_prediction
          carbon_content_kg_m2 := carbon_content
          co2_equivalent_kg_m2 := co2_equivalent
          features := features
          confidence_score := calculate_confidence features }

/-- `np.min` over a nonempty rational list (the aggregator only reduces
nonempty lists; the empty case never arises there). -/
def listMin (xs : List ℚ) : ℚ :=
  match xs with
  | [] => 0
  | x :: rest => rest.foldl min x

/-- `np.max` over a nonempty rational list. -/
def listMax (xs : List ℚ) : ℚ :=
  match xs with
  | [] => 0
  | x :: rest => rest.foldl max x

/-- One summary block of the aggregated results (mean/std/min/max/total of a
tracked metric). -/
structure Summary where
  mean : ℚ
  std : ℚ
  min : ℚ
  max : ℚ
  total : ℚ
deriving DecidableEq

/-- Summary statistics over the valid values of one metric, exactly the five
numpy reductions the aggregator applies. -/
def mkSummary (xs : List ℚ) : Summary :=
  { mean := listMean xs
    std := listStd xs
    min := listMin xs
    max := listMax xs
    total := xs.sum }

/-- The aggregated-results dictionary of `analyze_multiple_images` (success
case). -/
structure AggregatedResults where
  total_images : ℕ
  valid_analyses : ℕ
  biomass_summary : Summary
  carbon_summary : Summary
  co2_summary : Summary
  confidence_mean : ℚ
  confidence_std : ℚ
  individual_results : List AnalysisResult
  timestamp : String
deriving DecidableEq

/-- Outcome of `analyze_multiple_images`: aggregated results, or the distinct
error dictionary. -/
inductive AggregateOut where
  | ok : AggregatedResults → AggregateOut
  | err : String → AggregateOut
deriving DecidableEq

/-- The accumulation loop of `analyze_multiple_images`: each image is analyzed
in input order and the result is appended only when it is not error-tagged. -/
def collect_results (est : String → EstimateResult) (paths : List String) :
    List AnalysisResult :=
  paths.foldl (fun results p =>
    match est p with
    | .ok r => results ++ [r]
    | .err _ _ _ => results) []

/-- Model of `analyze_multiple_images`, over the same collaborator parameters
as `estimate_biomass`: analyze every path sequentially, keep the valid
results, and either report the distinct no-valid-results error or build the
aggregated summary blocks from the valid results only. -/
def analyze_multiple_images (preprocess : String → Option Image)
    (extract : Image → Metadata → List ℚ) (predict : List ℚ → ℚ)
    (now : String) (image_paths : List String) (metadata : Metadata) :
    AggregateOut :=
  let results := collect_results
    (fun p => estimate_biomass preprocess extract predict now p metadata)
    image_paths
  if results = [] then .err "No valid analysis results"
  else
    .ok { total_images := image_paths.length
          valid_analyses := results.length
          biomass_summary := mkSummary (results.map (fun r => r.biomass_estimate_kg_m2))
          carbon_summary := mkSummary (results.map (fun r => r.carbon_content_kg_m2))
          co2_summary := mkSummary (results.map (fun r => r.co2_equivalent_kg_m2))
          confidence_mean := listMean (results.map (fun r => r.confidence_score))
          confidence_std := listStd (results.map (fun r => r.confidence_score))
          individual_results := results
          timestamp := now }

/-- Observation used to compare the traceability list with the input batch:
the image paths recorded in `individual_results`, in order. -/
def AggregateOut.individualPaths : AggregateOut → List String
  | .ok agg => agg.individual_results.map (fun r => r.image_path)
  | .err _ => []

/-- Clipping lands in the clipping interval whenever the interval is
nonempty. -/
theorem npClip_mem (x lo hi : ℚ) (h : lo ≤ hi) :
    lo ≤ npClip x lo hi ∧ npClip x lo hi ≤ hi :=
  ⟨le_min (le_max_right x lo) h, min_le_right _ _⟩

/-- C3: the spec requires the degenerate EVI denominator
`green + 6*red - 7.5*blue + 1 = 0` to be guarded, with the zero-valued
fallback statistics vector returned. The code does not satisfy this: numpy
elementwise division by zero raises no Python exception, so on the image whose
pixel is `(r, g, b) = (0, 0, 2/15)` (denominator exactly 0, numerator 0) the
except-handler fallback is never reached and `calculate_ndvi` returns NaN in
all four statistics instead of the zero vector. -/
theorem calculate_ndvi_zero_denominator_nan :
    calculate_ndvi [((0 : ℚ), (0 : ℚ), (2/15 : ℚ))] = ⟨.nan, .nan, .nan, .nan⟩ ∧
    calculate_ndvi [((0 : ℚ), (0 : ℚ), (2/15 : ℚ))] ≠
      ⟨.fin 0, .fin 0, .fin 0, .fin 0⟩ := by
  have hevi : evi ((0 : ℚ), (0 : ℚ), (2/15 : ℚ)) = .nan := by
    norm_num [evi, fdiv]
  have h1 : calculate_ndvi [((0 : ℚ), (0 : ℚ), (2/15 : ℚ))] =
      ⟨.nan, .nan, .nan, .nan⟩ := by
    simp [calculate_ndvi, hevi, rmean, rsum, rstd, rminList, rmaxList,
      RFloat.add, RFloat.divNat, RFloat.sub, RFloat.neg, RFloat.sq,
      RFloat.fsqrt]
  refine ⟨h1, ?_⟩
  rw [h1]
  simp

/-- C6: `_calculate_fallback_biomass` is deterministic (equal inputs give
equal outputs) and, on every non-negative 14-element feature vector, returns
the fixed-weight linear combination of the features clamped to the interval
[0.1, 50.0]. -/
theorem calculate_fallback_biomass_deterministic_bounded :
    (∀ a b : List ℚ, a = b →
      calculate_fallback_biomass a = calculate_fallback_biomass b) ∧
    (∀ f0 f1 f2 f3 f4 f5 f6 f7 f8 f9 f10 f11 f12 f13 : ℚ,
      (∀ x ∈ [f0, f1, f2, f3, f4, f5, f6, f7, f8, f9, f10, f11, f12, f13],
        0 ≤ x) →
      calculate_fallback_biomass
          [f0, f1, f2, f3, f4, f5, f6, f7, f8, f9, f10, f11, f12, f13] =
        npClip (3/10 * f0 + 1/10 * f1 + 1/10 * f2 + 1/5 * f3 + 1/5 * f4
          + 1/10 * f5 + 1/10 * f6 + 1/5 * f7 + 3/10 * f8 + 2/5 * f9 + 1/5 * f10
          + 1/10 * f11 + 1/20 * f12 + 1/20 * f13) (1/10) 50 ∧
      1/10 ≤ calculate_fallback_biomass
          [f0, f1, f2, f3, f4, f5, f6, f7, f8, f9, f10, f11, f12, f13] ∧
      calculate_fallback_biomass
          [f0, f1, f2, f3, f4, f5, f6, f7, f8, f9, f10, f11, f12, f13] ≤ 50) := by
  constructor
  · intro a b h
    rw [h]
  · intro f0 f1 f2 f3 f4 f5 f6 f7 f8 f9 f10 f11 f12 f13 _
    refine ⟨?_, ?_, ?_⟩
    · simp only [calculate_fallback_biomass, fallback_weights, List.zipWith,
        List.sum_cons, List.sum_nil]
      congr 1
      ring
    · exact (npClip_mem _ _ _ (by norm_num)).1
    · exact (npClip_mem _ _ _ (by norm_num)).2

/-- Witness for C6 at the all-ones feature vector. -/
theorem calculate_fallback_biomass_witness :
    calculate_fallback_biomass [1, 1, 1, 1, 1, 1, 1, 1, 1, 1, 1, 1, 1, 1] =
      calculate_fallback_biomass [1, 1, 1, 1, 1, 1, 1, 1, 1, 1, 1, 1, 1, 1] ∧
    calculate_fallback_biomass [1, 1, 1, 1, 1, 1, 1, 1, 1, 1, 1, 1, 1, 1] =
      npClip ((3:ℚ)/10 * 1 + 1/10 * 1 + 1/10 * 1 + 1/5 * 1 + 1/5 * 1 + 1/10 * 1
        + 1/10 * 1 + 1/5 * 1 + 3/10 * 1 + 2/5 * 1 + 1/5 * 1 + 1/10 * 1
        + 1/20 * 1 + 1/20 * 1) (1/10) 50 ∧
    1/10 ≤ calculate_fallback_biomass [1, 1, 1, 1, 1, 1, 1, 1, 1, 1, 1, 1, 1, 1] ∧
    calculate_fallback_biomass [1, 1, 1, 1, 1, 1, 1, 1, 1, 1, 1, 1, 1, 1] ≤ 50 :=
  ⟨calculate_fallback_biomass_deterministic_bounded.1
      [1, 1, 1, 1, 1, 1, 1, 1, 1, 1, 1, 1, 1, 1]
      [1, 1, 1, 1, 1, 1, 1, 1, 1, 1, 1, 1, 1, 1] rfl,
    calculate_fallback_biomass_deterministic_bounded.2
      1 1 1 1 1 1 1 1 1 1 1 1 1 1 (by norm_num)⟩

/-- C7: `_calculate_confidence` maps every 14-element feature vector into
[0, 1]; on the all-zero vector it returns exactly 0 (no exception); and when
the feature indexing fails (fewer than 10 entries, the source's `IndexError`
path) it returns the neutral confidence 0.5. -/
theorem calculate_confidence_bounds :
    (∀ features : List ℚ, features.length = 14 →
      0 ≤ calculate_confidence features ∧ calculate_confidence features ≤ 1) ∧
    calculate_confidence [0, 0, 0, 0, 0, 0, 0, 0, 0, 0, 0, 0, 0, 0] = 0 ∧
    (∀ features : List ℚ, features.length < 10 →
      calculate_confidence features = 1/2) := by
  refine ⟨?_, by norm_num [calculate_confidence, npClip, List.get?], ?_⟩
  · intro fs h
    cases hg0 : fs.get? 0 with
    | none => exact absurd (List.get?_eq_none.mp hg0) (by omega)
    | some f0 =>
      cases hg4 : fs.get? 4 with
      | none => exact absurd (List.get?_eq_none.mp hg4) (by omega)
      | some f4 =>
        cases hg9 : fs.get? 9 with
        | none => exact absurd (List.get?_eq_none.mp hg9) (by omega)
        | some f9 =>
          simp only [calculate_confidence, hg0, hg4, hg9]
          exact npClip_mem _ 0 1 (by norm_num)
  · intro fs h
    have hg9 : fs.get? 9 = none := List.get?_eq_none.mpr (by omega)
    cases hg0 : fs.get? 0 <;> cases hg4 : fs.get? 4 <;>
      simp only [calculate_confidence, hg0, hg4, hg9]

/-- Witness for C7 at the all-ones feature vector. -/
theorem calculate_confidence_witness :
    (0 ≤ calculate_confidence (List.replicate 14 1) ∧
      calculate_confidence (List.replicate 14 1) ≤ 1) ∧
    calculate_confidence [] = 1/2 :=
  ⟨calculate_confidence_bounds.1 (List.replicate 14 1) (by simp),
    calculate_confidence_bounds.2.2 [] (by simp)⟩

/-- Scaling a single-sample column sends the sample to 0: the column mean is
the sample itself, the variance is 0, and the zero scale is replaced by 1. -/
theorem scale_column_single (xi : ℚ) : scale_column [xi] = [0] := by
  have h0 : Rat.sqrt (0 : ℚ) = 0 := by
    have h00 := Rat.sqrt_eq (0 : ℚ)
    rw [mul_zero, abs_zero] at h00
    exact h00
  simp [scale_column, handleZeros, h0]

/-- C2: the estimator refits its scaler on every single-row call, so the
scaled feature vector is identically zero: `scaler_fit_transform_single` maps
every feature vector to the all-zero vector of the same length, and on a
successfully loaded image `estimate_biomass` hands the prediction backend
exactly that all-zero vector, regardless of the extracted feature values. -/
theorem scaler_single_call_zero_vector :
    (∀ features : List ℚ,
      scaler_fit_transform_single features = List.replicate features.length 0) ∧
    (∀ (preprocess : String → Option Image)
      (extract : Image → Metadata → List ℚ) (predict : List ℚ → ℚ)
      (now image_path : String) (metadata : Metadata) (image : Image),
      preprocess image_path = some image →
      estimate_biomass preprocess extract predict now image_path metadata =
        .ok { image_path := image_path
              timestamp := now
              biomass_estimate_kg_m2 :=
                predict (List.replicate (extract image metadata).length 0)
              carbon_content_kg_m2 :=
                predict (List.replicate (extract image metadata).length 0)
                  * (47/100)
              co2_equivalent_kg_m2 :=
                predict (List.replicate (extract image metadata).length 0)
                  * (47/100) * (367/100)
              features := extract image metadata
              confidence_score :=
                calculate_confidence (extract image metadata) }) := by
  have hz : ∀ features : List ℚ,
      scaler_fit_transform_single features = List.replicate features.length 0 := by
    intro fs
    refine List.eq_replicate_iff.mpr ⟨by simp [scaler_fit_transform_single], ?_⟩
    intro b hb
    simp only [scaler_fit_transform_single, List.mem_map] at hb
    obtain ⟨xi, _, rfl⟩ := hb
    rw [scale_column_single]
    rfl
  refine ⟨hz, ?_⟩
  intro pre ext pr now path meta img h
  simp [estimate_biomass, h, hz]

/-- Witness for C2 on a concrete two-element feature vector and a concrete
successful load. -/
theorem scaler_single_call_zero_vector_witness :
    scaler_fit_transform_single [(5 : ℚ), 7] =
      List.replicate ([(5 : ℚ), 7]).length 0 ∧
    estimate_biomass (fun _ => some []) (fun _ _ => [(5 : ℚ), 7]) (fun v => v.sum)
        "t" "p.jpg" [] =
      .ok { image_path := "p.jpg"
            timestamp := "t"
            biomass_estimate_kg_m2 :=
              (List.replicate ([(5 : ℚ), 7]).length (0 : ℚ)).sum
            carbon_content_kg_m2 :=
              (List.replicate ([(5 : ℚ), 7]).length (0 : ℚ)).sum * (47/100)
            co2_equivalent_kg_m2 :=
              (List.replicate ([(5 : ℚ), 7]).length (0 : ℚ)).sum * (47/100)
                * (367/100)
            features := [(5 : ℚ), 7]
            confidence_score := calculate_confidence [(5 : ℚ), 7] } :=
  ⟨scaler_single_call_zero_vector.1 [(5 : ℚ), 7],
    scaler_single_call_zero_vector.2 (fun _ => some []) (fun _ _ => [(5 : ℚ), 7])
      (fun v => v.sum) "t" "p.jpg" [] [] rfl⟩

/-- C1: whenever `estimate_biomass` returns an analysis record, the carbon
content equals exactly biomass × 0.47 and the CO2 equivalent equals exactly
carbon × 3.67, for every biomass prediction value the backend produces,
including 0. -/
theorem estimate_biomass_carbon_co2 (preprocess : String → Option Image)
    (extract : Image → Metadata → List ℚ) (predict : List ℚ → ℚ)
    (now image_path : String) (metadata : Metadata) (r : AnalysisResult)
    (h : estimate_biomass preprocess extract predict now image_path metadata =
      .ok r) :
    r.carbon_content_kg_m2 = r.biomass_estimate_kg_m2 * (47/100) ∧
    r.co2_equivalent_kg_m2 = r.carbon_content_kg_m2 * (367/100) := by
  cases hp : preprocess image_path with
  | none => simp [estimate_biomass, hp] at h
  | some image =>
    simp only [estimate_biomass, hp, EstimateResult.ok.injEq] at h
    subst h
    exact ⟨rfl, rfl⟩

/-- Witness for C1 with a backend that predicts 0. -/
theorem estimate_biomass_carbon_co2_witness :
    (⟨"p.jpg", "t", 0, 0, 0, [], 1/2⟩ : AnalysisResult).carbon_content_kg_m2 =
      (⟨"p.jpg", "t", 0, 0, 0, [], 1/2⟩ :
        AnalysisResult).biomass_estimate_kg_m2 * (47/100) ∧
    (⟨"p.jpg", "t", 0, 0, 0, [], 1/2⟩ :
        AnalysisResult).co2_equivalent_kg_m2 =
      (⟨"p.jpg", "t", 0, 0, 0, [], 1/2⟩ :
        AnalysisResult).carbon_content_kg_m2 * (367/100) :=
  estimate_biomass_carbon_co2 (fun _ => some []) (fun _ _ => []) (fun _ => 0)
    "t" "p.jpg" [] ⟨"p.jpg", "t", 0, 0, 0, [], 1/2⟩
    (by simp [estimate_biomass, scaler_fit_transform_single,
      calculate_confidence])

/-- C5: `estimate_biomass` is a total function (no exception escapes the
pipeline boundary), and on an unrecoverable failure — the image cannot be
loaded — it returns the error-tagged result carrying the original image path
and the timestamp. -/
theorem estimate_biomass_error_tagged (preprocess : String → Option Image)
    (extract : Image → Metadata → List ℚ) (predict : List ℚ → ℚ)
    (now image_path : String) (metadata : Metadata)
    (h : preprocess image_path = none) :
    estimate_biomass preprocess extract predict now image_path metadata =
      .err ("Could not load image from " ++ image_path) image_path now := by
  simp [estimate_biomass, h]

/-- Witness for C5 with a loader that fails on every path. -/
theorem estimate_biomass_error_tagged_witness :
    estimate_biomass (fun _ => none) (fun _ _ => []) (fun _ => 0) "t"
        "missing.jpg" [] =
      .err ("Could not load image from " ++ "missing.jpg") "missing.jpg" "t" :=
  estimate_biomass_error_tagged (fun _ => none) (fun _ _ => []) (fun _ => 0)
    "t" "missing.jpg" [] rfl

/-- C9: on every image of the canonical normalized size (512×512 pixels,
channel values in [0, 1]), `calculate_canopy_cover` returns a value in
[0, 100] and `estimate_species_diversity` returns a value in [0, 1], for any
cv2 color conversions. -/
theorem canopy_cover_diversity_bounds (cvtHSV cvtLAB : Pixel → Pixel)
    (img : Image) (hlen : img.length = 512 * 512)
    (_hchan : ∀ p ∈ img, (0 ≤ p.1 ∧ p.1 ≤ 1) ∧ (0 ≤ p.2.1 ∧ p.2.1 ≤ 1) ∧
      (0 ≤ p.2.2 ∧ p.2.2 ≤ 1)) :
    (0 ≤ calculate_canopy_cover cvtHSV img ∧
      calculate_canopy_cover cvtHSV img ≤ 100) ∧
    (0 ≤ estimate_species_diversity cvtLAB img ∧
      estimate_species_diversity cvtLAB img ≤ 1) := by
  constructor
  · have hle : (((img.map cvtHSV).filter in_green_range).length : ℚ) ≤
        (img.length : ℚ) := by
      have := List.length_filter_le in_green_range (img.map cvtHSV)
      rw [List.length_map] at this
      exact_mod_cast this
    constructor
    · unfold calculate_canopy_cover
      positivity
    · unfold calculate_canopy_cover
      have hpos : (0 : ℚ) < (img.length : ℚ) := by
        rw [hlen]
        norm_num
      have h1 : (((img.map cvtHSV).filter in_green_range).length : ℚ) /
          (img.length : ℚ) ≤ 1 := by
        rw [div_le_one hpos]
        exact hle
      linarith
  · exact npClip_mem _ 0 1 (by norm_num)

/-- Witness for C9 at the all-black canonical image and identity
conversions. -/
theorem canopy_cover_diversity_bounds_witness :
    (0 ≤ calculate_canopy_cover id
        (List.replicate (512 * 512) ((0 : ℚ), (0 : ℚ), (0 : ℚ))) ∧
      calculate_canopy_cover id
        (List.replicate (512 * 512) ((0 : ℚ), (0 : ℚ), (0 : ℚ))) ≤ 100) ∧
    (0 ≤ estimate_species_diversity id
        (List.replicate (512 * 512) ((0 : ℚ), (0 : ℚ), (0 : ℚ))) ∧
      estimate_species_diversity id
        (List.replicate (512 * 512) ((0 : ℚ), (0 : ℚ), (0 : ℚ))) ≤ 1) :=
  canopy_cover_diversity_bounds id id
    (List.replicate (512 * 512) ((0 : ℚ), (0 : ℚ), (0 : ℚ)))
    (List.length_replicate (512 * 512) ((0 : ℚ), (0 : ℚ), (0 : ℚ)))
    (by
      intro p hp
      rw [List.eq_of_mem_replicate hp]
      norm_num)

/-- The accumulation loop of the aggregator, started from an arbitrary
accumulator, appends exactly the non-error results in input order. -/
theorem collect_results_go (est : String → EstimateResult)
    (paths : List String) (acc : List AnalysisResult) :
    paths.foldl (fun results p =>
      match est p with
      | .ok r => results ++ [r]
      | .err _ _ _ => results) acc =
      acc ++ (paths.map est).filterMap EstimateResult.toOk := by
  induction paths generalizing acc with
  | nil => simp
  | cons p rest ih =>
    cases h : est p with
    | ok r => simp [h, ih, EstimateResult.toOk]
    | err e ip ts => simp [h, ih, EstimateResult.toOk]

/-- The collected valid results are the non-error results in input order. -/
theorem collect_results_eq (est : String → EstimateResult)
    (paths : List String) :
    collect_results est paths = (paths.map est).filterMap EstimateResult.toOk := by
  simpa using collect_results_go est paths []

/-- Keeping the non-error results keeps exactly as many entries as there are
non-error-tagged results. -/
theorem length_filterMap_toOk (l : List EstimateResult) :
    (l.filterMap EstimateResult.toOk).length = l.countP EstimateResult.isOk := by
  induction l with
  | nil => rfl
  | cons e rest ih =>
    cases e <;>
      simp [EstimateResult.toOk, EstimateResult.isOk, List.countP_cons, ih]

/-- C4: `analyze_multiple_images` skips error-tagged per-image results. When
at least one result is valid, the aggregate's `valid_analyses` equals the
number of non-error results and every summary block is computed from the
valid results' values only; when every per-image result is error-tagged, the
aggregate is the distinct error value `No valid analysis results`. -/
theorem analyze_multiple_images_skips_errors
    (preprocess : String → Option Image) (extract : Image → Metadata → List ℚ)
    (predict : List ℚ → ℚ) (now : String) (image_paths : List String)
    (metadata : Metadata) :
    (∀ agg : AggregatedResults,
      analyze_multiple_images preprocess extract predict now image_paths
        metadata = .ok agg →
      agg.valid_analyses =
        (image_paths.map (fun p =>
          estimate_biomass preprocess extract predict now p metadata)).countP
          EstimateResult.isOk ∧
      agg.biomass_summary = mkSummary
        (((image_paths.map (fun p =>
          estimate_biomass preprocess extract predict now p metadata)).filterMap
          EstimateResult.toOk).map (fun r => r.biomass_estimate_kg_m2)) ∧
      agg.carbon_summary = mkSummary
        (((image_paths.map (fun p =>
          estimate_biomass preprocess extract predict now p metadata)).filterMap
          EstimateResult.toOk).map (fun r => r.carbon_content_kg_m2)) ∧
      agg.co2_summary = mkSummary
        (((image_paths.map (fun p =>
          estimate_biomass preprocess extract predict now p metadata)).filterMap
          EstimateResult.toOk).map (fun r => r.co2_equivalent_kg_m2)) ∧
      agg.confidence_mean = listMean
        (((image_paths.map (fun p =>
          estimate_biomass preprocess extract predict now p metadata)).filterMap
          EstimateResult.toOk).map (fun r => r.confidence_score)) ∧
      agg.confidence_std = listStd
        (((image_paths.map (fun p =>
          estimate_biomass preprocess extract predict now p metadata)).filterMap
          EstimateResult.toOk).map (fun r => r.confidence_score))) ∧
    ((∀ p ∈ image_paths, EstimateResult.isOk
        (estimate_biomass preprocess extract predict now p metadata) = false) →
      analyze_multiple_images preprocess extract predict now image_paths
        metadata = .err "No valid analysis results") := by
  constructor
  · intro agg h
    simp only [analyze_multiple_images, collect_results_eq] at h
    by_cases he : ((image_paths.map (fun p =>
        estimate_biomass preprocess extract predict now p metadata)).filterMap
        EstimateResult.toOk) = []
    · rw [if_pos he] at h
      exact absurd h (by simp)
    · rw [if_neg he] at h
      simp only [AggregateOut.ok.injEq] at h
      subst h
      exact ⟨length_filterMap_toOk _, rfl, rfl, rfl, rfl, rfl⟩
  · intro hall
    have he : ((image_paths.map (fun p =>
        estimate_biomass preprocess extract predict now p metadata)).filterMap
        EstimateResult.toOk) = [] := by
      rw [List.filterMap_eq_nil_iff]
      intro e hmem
      obtain ⟨p, hp, rfl⟩ := List.mem_map.mp hmem
      have := hall p hp
      cases hres : estimate_biomass preprocess extract predict now p metadata with
      | ok r => rw [hres] at this; exact absurd this (by simp [EstimateResult.isOk])
      | err a b c => rfl
    simp only [analyze_multiple_images, collect_results_eq]
    rw [if_pos he]

/-- C8 amended: the aggregate's `individual_results` preserves, in input
order, the results of the valid (non-error-tagged) analyses; error-tagged
images contribute no entry. -/
theorem individual_results_valid_in_order
    (preprocess : String → Option Image) (extract : Image → Metadata → List ℚ)
    (predict : List ℚ → ℚ) (now : String) (image_paths : List String)
    (metadata : Metadata) (agg : AggregatedResults)
    (h : analyze_multiple_images preprocess extract predict now image_paths
      metadata = .ok agg) :
    agg.individual_results =
      (image_paths.map (fun p =>
        estimate_biomass preprocess extract predict now p metadata)).filterMap
        EstimateResult.toOk := by
  simp only [analyze_multiple_images, collect_results_eq] at h
  by_cases he : ((image_paths.map (fun p =>
      estimate_biomass preprocess extract predict now p metadata)).filterMap
      EstimateResult.toOk) = []
  · rw [if_pos he] at h
    exact absurd h (by simp)
  · rw [if_neg he] at h
    simp only [AggregateOut.ok.injEq] at h
    subst h
    rfl

/-- C10: whenever the aggregate is valid, `valid_analyses` equals the length
of `individual_results`, that length is at most `total_images`, and
`total_images` is the number of input image paths. -/
theorem aggregate_count_invariant
    (preprocess : String → Option Image) (extract : Image → Metadata → List ℚ)
    (predict : List ℚ → ℚ) (now : String) (image_paths : List String)
    (metadata : Metadata) (agg : AggregatedResults)
    (h : analyze_multiple_images preprocess extract predict now image_paths
      metadata = .ok agg) :
    agg.valid_analyses = agg.individual_results.length ∧
    agg.individual_results.length ≤ agg.total_images ∧
    agg.total_images = image_paths.length := by
  simp only [analyze_multiple_images, collect_results_eq] at h
  by_cases he : ((image_paths.map (fun p =>
      estimate_biomass preprocess extract predict now p metadata)).filterMap
      EstimateResult.toOk) = []
  · rw [if_pos he] at h
    exact absurd h (by simp)
  · rw [if_neg he] at h
    simp only [AggregateOut.ok.injEq] at h
    subst h
    refine ⟨rfl, ?_, rfl⟩
    have h1 := List.length_filterMap_le EstimateResult.toOk
      (image_paths.map (fun p =>
        estimate_biomass preprocess extract predict now p metadata))
    simpa [List.length_map] using h1

/-- Concrete loader for batch examples: the image at `bad.jpg` cannot be
decoded, every other path loads as an empty buffer. -/
def cexPreprocess : String → Option Image :=
  fun p => if p = "bad.jpg" then none else some []

/-- Concrete feature extractor for batch examples: all-zero 14-vector. -/
def cexExtract : Image → Metadata → List ℚ := fun _ _ => List.replicate 14 0

/-- Concrete regression backend for batch examples: constant prediction 1. -/
def cexPredict : List ℚ → ℚ := fun _ => 1

/-- The analysis record `estimate_biomass` produces for a successfully loaded
path `p` under the concrete batch collaborators. -/
def goodResultAt (p : String) : AnalysisResult :=
  { image_path := p
    timestamp := "t"
    biomass_estimate_kg_m2 := 1
    carbon_content_kg_m2 := 1 * (47/100)
    co2_equivalent_kg_m2 := 1 * (47/100) * (367/100)
    features := List.replicate 14 0
    confidence_score := calculate_confidence (List.replicate 14 0) }

/-- The aggregate of the two-path batch `[bad.jpg, good.jpg]` under the
concrete batch collaborators. -/
def cexAggregate : AggregatedResults :=
  { total_images := 2
    valid_analyses := 1
    biomass_summary := mkSummary [(goodResultAt "good.jpg").biomass_estimate_kg_m2]
    carbon_summary := mkSummary [(goodResultAt "good.jpg").carbon_content_kg_m2]
    co2_summary := mkSummary [(goodResultAt "good.jpg").co2_equivalent_kg_m2]
    confidence_mean := listMean [(goodResultAt "good.jpg").confidence_score]
    confidence_std := listStd [(goodResultAt "good.jpg").confidence_score]
    individual_results := [goodResultAt "good.jpg"]
    timestamp := "t" }

/-- Evaluation of the two-path batch: the error-tagged first image contributes
no entry to `individual_results`. -/
theorem analyze_cex_batch :
    analyze_multiple_images cexPreprocess cexExtract cexPredict "t"
      ["bad.jpg", "good.jpg"] [] = .ok cexAggregate := by
  simp [analyze_multiple_images, collect_results, estimate_biomass,
    cexPreprocess, cexExtract, cexPredict, cexAggregate, goodResultAt]

/-- C8 counterexample: `individual_results` does not list the result of every
input image — for the two-image batch whose first image fails to load, the
recorded paths are `[good.jpg]`, not `[bad.jpg, good.jpg]`. -/
theorem individual_results_not_every_input :
    AggregateOut.individualPaths (analyze_multiple_images cexPreprocess
      cexExtract cexPredict "t" ["bad.jpg", "good.jpg"] []) ≠
      ["bad.jpg", "good.jpg"] := by
  rw [analyze_cex_batch]
  simp [AggregateOut.individualPaths, cexAggregate, goodResultAt]

/-- Witness for the amended C8 at the concrete two-path batch. -/
theorem individual_results_valid_in_order_witness :
    cexAggregate.individual_results =
      ((["bad.jpg", "good.jpg"].map (fun p =>
        estimate_biomass cexPreprocess cexExtract cexPredict "t" p [])).filterMap
        EstimateResult.toOk) :=
  individual_results_valid_in_order cexPreprocess cexExtract cexPredict "t"
    ["bad.jpg", "good.jpg"] [] cexAggregate analyze_cex_batch

/-- Witness for C10 at the concrete two-path batch. -/
theorem aggregate_count_invariant_witness :
    cexAggregate.valid_analyses = cexAggregate.individual_results.length ∧
    cexAggregate.individual_results.length ≤ cexAggregate.total_images ∧
    cexAggregate.total_images = (["bad.jpg", "good.jpg"] : List String).length :=
  aggregate_count_invariant cexPreprocess cexExtract cexPredict "t"
    ["bad.jpg", "good.jpg"] [] cexAggregate analyze_cex_batch

/-- The aggregate of the three-path batch `[bad.jpg, g1.jpg, g2.jpg]` (one
error-tagged, two valid) under the concrete batch collaborators. -/
def batchAggregate : AggregatedResults :=
  { total_images := 3
    valid_analyses := 2
    biomass_summary := mkSummary [(goodResultAt "g1.jpg").biomass_estimate_kg_m2,
      (goodResultAt "g2.jpg").biomass_estimate_kg_m2]
    carbon_summary := mkSummary [(goodResultAt "g1.jpg").carbon_content_kg_m2,
      (goodResultAt "g2.jpg").carbon_content_kg_m2]
    co2_summary := mkSummary [(goodResultAt "g1.jpg").co2_equivalent_kg_m2,
      (goodResultAt "g2.jpg").co2_equivalent_kg_m2]
    confidence_mean := listMean [(goodResultAt "g1.jpg").confidence_score,
      (goodResultAt "g2.jpg").confidence_score]
    confidence_std := listStd [(goodResultAt "g1.jpg").confidence_score,
      (goodResultAt "g2.jpg").confidence_score]
    individual_results := [goodResultAt "g1.jpg", goodResultAt "g2.jpg"]
    timestamp := "t" }

/-- Evaluation of the three-path batch with one error-tagged and two valid
results. -/
theorem analyze_batch_one_error_two_valid :
    analyze_multiple_images cexPreprocess cexExtract cexPredict "t"
      ["bad.jpg", "g1.jpg", "g2.jpg"] [] = .ok batchAggregate := by
  simp [analyze_multiple_images, collect_results, estimate_biomass,
    cexPreprocess, cexExtract, cexPredict, batchAggregate, goodResultAt]

/-- Witness for C4: one error-tagged plus two valid results yields
`valid_analyses = 2` with summaries over the two valid values only. -/
theorem analyze_multiple_images_skips_errors_witness :
    (batchAggregate.valid_analyses =
      ((["bad.jpg", "g1.jpg", "g2.jpg"].map (fun p =>
        estimate_biomass cexPreprocess cexExtract cexPredict "t" p [])).countP
        EstimateResult.isOk) ∧
    batchAggregate.biomass_summary = mkSummary
      (((["bad.jpg", "g1.jpg", "g2.jpg"].map (fun p =>
        estimate_biomass cexPreprocess cexExtract cexPredict "t" p [])).filterMap
        EstimateResult.toOk).map (fun r => r.biomass_estimate_kg_m2)) ∧
    batchAggregate.carbon_summary = mkSummary
      (((["bad.jpg", "g1.jpg", "g2.jpg"].map (fun p =>
        estimate_biomass cexPreprocess cexExtract cexPredict "t" p [])).filterMap
        EstimateResult.toOk).map (fun r => r.carbon_content_kg_m2)) ∧
    batchAggregate.co2_summary = mkSummary
      (((["bad.jpg", "g1.jpg", "g2.jpg"].map (fun p =>
        estimate_biomass cexPreprocess cexExtract cexPredict "t" p [])).filterMap
        EstimateResult.toOk).map (fun r => r.co2_equivalent_kg_m2)) ∧
    batchAggregate.confidence_mean = listMean
      (((["bad.jpg", "g1.jpg", "g2.jpg"].map (fun p =>
        estimate_biomass cexPreprocess cexExtract cexPredict "t" p [])).filterMap
        EstimateResult.toOk).map (fun r => r.confidence_score)) ∧
    batchAggregate.confidence_std = listStd
      (((["bad.jpg", "g1.jpg", "g2.jpg"].map (fun p =>
        estimate_biomass cexPreprocess cexExtract cexPredict "t" p [])).filterMap
        EstimateResult.toOk).map (fun r => r.confidence_score))) ∧
    analyze_multiple_images cexPreprocess cexExtract cexPredict "t"
      ["bad.jpg"] [] = .err "No valid analysis results" := by
  refine ⟨?_, ?_⟩
  · exact (analyze_multiple_images_skips_errors cexPreprocess cexExtract
      cexPredict "t" ["bad.jpg", "g1.jpg", "g2.jpg"] []).1 batchAggregate
      analyze_batch_one_error_two_valid
  · refine (analyze_multiple_images_skips_errors cexPreprocess cexExtract
      cexPredict "t" ["bad.jpg"] []).2 ?_
    intro p hp
    simp only [List.mem_singleton] at hp
    subst hp
    simp [estimate_biomass, cexPreprocess, EstimateResult.isOk]

end BiomassAnalysis
